import Mathlib

/-!
# Verification of the unit-converter core (`src/unit-converter/main.py`)

Shallow embedding of the unit-converter program.  Python floats are
idealised as exact rationals (`ℚ`); special IEEE values produced by
`float(...)` parsing (`inf`, `-inf`, `nan`) are carried by the `PyVal`
type.  The interactive menus are modelled as functions that consume a
finite list of input lines and produce the list of emitted outputs
(printed lines, printed conversion results, logged error lines) together
with the remaining, unconsumed input; blocking on an exhausted input
list is reported explicitly.
-/

namespace UnitConverter

/-! ## Conversion Engine (`convert_*` functions, main.py lines 11–80) -/

/-- `convert_f_to_c`: `return (unit - 32) / 1.8`. -/
def convert_f_to_c (unit : ℚ) : ℚ := (unit - 32) / 1.8

/-- `convert_c_to_f`: `return (unit * 1.8) + 32`. -/
def convert_c_to_f (unit : ℚ) : ℚ := (unit * 1.8) + 32

/-- `convert_miles_to_km`: `return unit * 1.60934`. -/
def convert_miles_to_km (unit : ℚ) : ℚ := unit * 1.60934

/-- `convert_km_to_miles`: `return unit / 1.60934`. -/
def convert_km_to_miles (unit : ℚ) : ℚ := unit / 1.60934

/-- `convert_lbs_to_kg`: `return unit * 0.453592`. -/
def convert_lbs_to_kg (unit : ℚ) : ℚ := unit * 0.453592

/-- `convert_kg_to_lbs`: `return unit / 0.453592`. -/
def convert_kg_to_lbs (unit : ℚ) : ℚ := unit / 0.453592

/-! ## Python float values

A successfully parsed Python float is either a finite value (idealised
as a rational) or one of the special values `inf`, `-inf`, `nan`. -/

/-- A Python float value as produced by `float(str)`. -/
inductive PyVal where
  | fin (q : ℚ)
  | inf
  | ninf
  | nan
deriving DecidableEq

/-- Applying one of the six conversion formulas to a Python float value.
All six formulas are affine maps with a positive scale factor, so IEEE
arithmetic sends `+inf` to `+inf`, `-inf` to `-inf` and `nan` to `nan`;
on finite values the formula itself applies. -/
def convVal (f : ℚ → ℚ) : PyVal → PyVal
  | .fin q => .fin (f q)
  | .inf => .inf
  | .ninf => .ninf
  | .nan => .nan

/-! ## Model of Python `float(str)` parsing

`float` strips surrounding whitespace, accepts an optional sign, then
either a spelling of infinity / NaN (case-insensitive) or a decimal
number: digits with an optional fractional part (at least one digit in
mantissa) and an optional `e`/`E` exponent.  Anything else raises
`ValueError`, modelled as `none`. -/

/-- Numeric value of a list of decimal digit characters. -/
def natOfDigits (cs : List Char) : ℕ :=
  cs.foldl (fun a c => 10 * a + (c.toNat - 48)) 0

/-- Parse the optional exponent suffix; must consume the whole rest. -/
def parseExponent : List Char → Option ℤ
  | [] => some 0
  | c :: rest =>
    if c = 'e' ∨ c = 'E' then
      match rest with
      | '+' :: ds =>
        if ds ≠ [] ∧ ds.all Char.isDigit then some (natOfDigits ds : ℤ) else none
      | '-' :: ds =>
        if ds ≠ [] ∧ ds.all Char.isDigit then some (-(natOfDigits ds : ℤ)) else none
      | ds =>
        if ds ≠ [] ∧ ds.all Char.isDigit then some (natOfDigits ds : ℤ) else none
    else none

/-- Parse the mantissa: digits, optionally a decimal point and more
digits; at least one digit overall.  Returns its value and the rest. -/
def parseMantissa (cs : List Char) : Option (ℚ × List Char) :=
  let ip := cs.takeWhile Char.isDigit
  let r1 := cs.dropWhile Char.isDigit
  match r1 with
  | '.' :: r2 =>
    let fp := r2.takeWhile Char.isDigit
    let r3 := r2.dropWhile Char.isDigit
    if ip = [] ∧ fp = [] then none
    else some ((natOfDigits ip : ℚ) + (natOfDigits fp : ℚ) / (10 : ℚ) ^ fp.length, r3)
  | _ => if ip = [] then none else some ((natOfDigits ip : ℚ), r1)

/-- Parse an unsigned decimal number (mantissa plus optional exponent). -/
def parseNumber (cs : List Char) : Option ℚ := do
  let (m, rest) ← parseMantissa cs
  let e ← parseExponent rest
  pure (m * (10 : ℚ) ^ e)

/-- Python `float` strips surrounding whitespace from the argument
before parsing. -/
def pyStrip (cs : List Char) : List Char :=
  ((cs.dropWhile Char.isWhitespace).reverse.dropWhile Char.isWhitespace).reverse

/-- Model of Python `float(str)`: `some` of the parsed value, `none`
when `float` raises `ValueError`. -/
def parseFloat (s : String) : Option PyVal :=
  let cs := pyStrip s.data
  let signed : Bool × List Char :=
    match cs with
    | '+' :: r => (false, r)
    | '-' :: r => (true, r)
    | r => (false, r)
  let neg := signed.1
  let body := signed.2
  let low := body.map Char.toLower
  if low = "inf".toList ∨ low = "infinity".toList then
    some (if neg then PyVal.ninf else PyVal.inf)
  else if low = "nan".toList then
    some PyVal.nan
  else
    (parseNumber body).map fun q => PyVal.fin (if neg then -q else q)

/-! ## Menu Controller

Each menu is a function from the list of pending input lines to the
list of emitted outputs paired with `some rest` (the menu returned,
`rest` unconsumed) or `none` (the program is blocked waiting for input
that the list does not contain). -/

/-- One emitted output: a printed line, a printed conversion result, or
a line logged through `logger.error`. -/
inductive Out where
  | msg (s : String)
  | result (v : PyVal)
  | err (s : String)
deriving DecidableEq

/-- The three menu lines plus the `input(...)` prompt that every
category menu prints before reading its option line. -/
def menuHeader (l1 l2 prompt : String) : List Out :=
  [Out.msg l1, Out.msg l2, Out.msg "3. Go Back", Out.msg prompt]

/-- `temperature_menu` (main.py lines 83–98), transcribed directly. -/
def temperature_menu (inputs : List String) : List Out × Option (List String) :=
  let hdr := menuHeader "1. C to F" "2. F to C" "Pick a conversion"
  match inputs with
  | [] => (hdr, none)
  | temp_option :: rest =>
    if temp_option = "1" ∨ temp_option = "2" then
      match rest with
      | [] => (hdr ++ [Out.msg "Insert a number:"], none)
      | num :: rest2 =>
        match parseFloat num with
        | some casted_num =>
          if temp_option = "1" then
            (hdr ++ [Out.msg "Insert a number:",
              Out.result (convVal convert_c_to_f casted_num)], some rest2)
          else
            (hdr ++ [Out.msg "Insert a number:",
              Out.result (convVal convert_f_to_c casted_num)], some rest2)
        | none =>
          (hdr ++ [Out.msg "Insert a number:",
            Out.err (num ++ " is not a number")], some rest2)
    else (hdr, some rest)

/-- `distance_menu` (main.py lines 101–116), transcribed directly.
Note the trailing space in the source's `"2. KM to Miles "` line. -/
def distance_menu (inputs : List String) : List Out × Option (List String) :=
  let hdr := menuHeader "1. Miles to KM" "2. KM to Miles " "Pick a conversion"
  match inputs with
  | [] => (hdr, none)
  | dist_option :: rest =>
    if dist_option = "1" ∨ dist_option = "2" then
      match rest with
      | [] => (hdr ++ [Out.msg "Insert a number:"], none)
      | num :: rest2 =>
        match parseFloat num with
        | some casted_num =>
          if dist_option = "1" then
            (hdr ++ [Out.msg "Insert a number:",
              Out.result (convVal convert_miles_to_km casted_num)], some rest2)
          else
            (hdr ++ [Out.msg "Insert a number:",
              Out.result (convVal convert_km_to_miles casted_num)], some rest2)
        | none =>
          (hdr ++ [Out.msg "Insert a number:",
            Out.err (num ++ " is not a number")], some rest2)
    else (hdr, some rest)

/-- `weight_menu` (main.py lines 119–134), transcribed directly.  Its
prompt is `"Pick a conversion:"` (with a colon, unlike the other two). -/
def weight_menu (inputs : List String) : List Out × Option (List String) :=
  let hdr := menuHeader "1. LBS TO KG" "2. KG TO LBS" "Pick a conversion:"
  match inputs with
  | [] => (hdr, none)
  | weight_option :: rest =>
    if weight_option = "1" ∨ weight_option = "2" then
      match rest with
      | [] => (hdr ++ [Out.msg "Insert a number:"], none)
      | num :: rest2 =>
        match parseFloat num with
        | some casted_num =>
          if weight_option = "1" then
            (hdr ++ [Out.msg "Insert a number:",
              Out.result (convVal convert_lbs_to_kg casted_num)], some rest2)
          else
            (hdr ++ [Out.msg "Insert a number:",
              Out.result (convVal convert_kg_to_lbs casted_num)], some rest2)
        | none =>
          (hdr ++ [Out.msg "Insert a number:",
            Out.err (num ++ " is not a number")], some rest2)
    else (hdr, some rest)

/-- The common shape of the three category menus: labels, prompt text
and the two conversion functions are parameters, everything else is
shared.  Used to state that the three menus are instances of one
template. -/
def category_menu (l1 l2 prompt : String) (conv1 conv2 : ℚ → ℚ)
    (inputs : List String) : List Out × Option (List String) :=
  let hdr := menuHeader l1 l2 prompt
  match inputs with
  | [] => (hdr, none)
  | opt :: rest =>
    if opt = "1" ∨ opt = "2" then
      match rest with
      | [] => (hdr ++ [Out.msg "Insert a number:"], none)
      | num :: rest2 =>
        match parseFloat num with
        | some casted_num =>
          (hdr ++ [Out.msg "Insert a number:",
            Out.result (convVal (if opt = "1" then conv1 else conv2) casted_num)],
           some rest2)
        | none =>
          (hdr ++ [Out.msg "Insert a number:",
            Out.err (num ++ " is not a number")], some rest2)
    else (hdr, some rest)

/-! ## The top-level loop (`main`, main.py lines 137–160) -/

/-- The banner and prompt printed at the start of every loop iteration. -/
def banner : List Out :=
  [Out.msg "Welcome to the Unit Converter", Out.msg "1. Temperature",
   Out.msg "2. Distance", Out.msg "3. Weight", Out.msg "Press 'Q' to quit",
   Out.msg "Select an option"]

/-- Result of one iteration of the `while True` loop. -/
inductive StepRes where
  | quit (rem : List String)
  | cont (rem : List String)
  | blocked
deriving DecidableEq

/-- One iteration of `main`'s `while True` loop: print the banner, read
an option, dispatch.  `quit` is the `break` branch, `cont` means the
loop body finished and the loop re-enters, `blocked` means the program
is waiting for input beyond the given list. -/
def main_step (inputs : List String) : List Out × StepRes :=
  match inputs with
  | [] => (banner, .blocked)
  | option :: rest =>
    if option = "1" then
      match temperature_menu rest with
      | (out, some rem) => (banner ++ out, .cont rem)
      | (out, none) => (banner ++ out, .blocked)
    else if option = "2" then
      match distance_menu rest with
      | (out, some rem) => (banner ++ out, .cont rem)
      | (out, none) => (banner ++ out, .blocked)
    else if option = "3" then
      match weight_menu rest with
      | (out, some rem) => (banner ++ out, .cont rem)
      | (out, none) => (banner ++ out, .blocked)
    else if option = "q" ∨ option = "Q" then (banner, .quit rest)
    else (banner ++ [Out.msg "Option not found"], .cont rest)

/-- Final fate of a run of `main` on a finite input list. -/
inductive MainRes where
  | quit (rem : List String)
  | blocked
  | outOfFuel
deriving DecidableEq

/-- Run `main`'s loop for at most `fuel` iterations on the given input
list.  Every iteration consumes at least one input line, so
`inputs.length + 1` fuel always suffices to reach `quit` or `blocked`. -/
def run_main : ℕ → List String → List Out × MainRes
  | 0, _ => ([], .outOfFuel)
  | fuel + 1, inputs =>
    match main_step inputs with
    | (out, .quit rem) => (out, .quit rem)
    | (out, .blocked) => (out, .blocked)
    | (out, .cont rem) =>
      let next := run_main fuel rem
      (out ++ next.1, next.2)

/-! ## Helper lemmas -/

/-- Numeric value of the digit character `'0'`. -/
theorem charDigitVal0 : ('0' : Char).toNat = 48 := rfl

/-- Numeric value of the digit character `'1'`. -/
theorem charDigitVal1 : ('1' : Char).toNat = 49 := rfl

/-- `temperature_menu` is the category-menu template at its labels and
conversion functions. -/
theorem temperature_menu_eq (i : List String) :
    temperature_menu i =
      category_menu "1. C to F" "2. F to C" "Pick a conversion"
        convert_c_to_f convert_f_to_c i := by
  cases i with
  | nil => rfl
  | cons opt rest =>
    by_cases h : opt = "1" ∨ opt = "2"
    · cases rest with
      | nil => simp [temperature_menu, category_menu, h]
      | cons num rest2 =>
        cases hp : parseFloat num with
        | none => simp [temperature_menu, category_menu, h, hp]
        | some v =>
          by_cases h1 : opt = "1"
          · simp [temperature_menu, category_menu, h, h1, hp]
          · simp [temperature_menu, category_menu, h, h1, hp]
    · simp [temperature_menu, category_menu, h]

/-- `distance_menu` is the category-menu template at its labels and
conversion functions. -/
theorem distance_menu_eq (i : List String) :
    distance_menu i =
      category_menu "1. Miles to KM" "2. KM to Miles " "Pick a conversion"
        convert_miles_to_km convert_km_to_miles i := by
  cases i with
  | nil => rfl
  | cons opt rest =>
    by_cases h : opt = "1" ∨ opt = "2"
    · cases rest with
      | nil => simp [distance_menu, category_menu, h]
      | cons num rest2 =>
        cases hp : parseFloat num with
        | none => simp [distance_menu, category_menu, h, hp]
        | some v =>
          by_cases h1 : opt = "1"
          · simp [distance_menu, category_menu, h, h1, hp]
          · simp [distance_menu, category_menu, h, h1, hp]
    · simp [distance_menu, category_menu, h]

/-- `weight_menu` is the category-menu template at its labels and
conversion functions. -/
theorem weight_menu_eq (i : List String) :
    weight_menu i =
      category_menu "1. LBS TO KG" "2. KG TO LBS" "Pick a conversion:"
        convert_lbs_to_kg convert_kg_to_lbs i := by
  cases i with
  | nil => rfl
  | cons opt rest =>
    by_cases h : opt = "1" ∨ opt = "2"
    · cases rest with
      | nil => simp [weight_menu, category_menu, h]
      | cons num rest2 =>
        cases hp : parseFloat num with
        | none => simp [weight_menu, category_menu, h, hp]
        | some v =>
          by_cases h1 : opt = "1"
          · simp [weight_menu, category_menu, h, h1, hp]
          · simp [weight_menu, category_menu, h, h1, hp]
    · simp [weight_menu, category_menu, h]

/-- Any error line emitted by the category-menu template comes from the
parse-failure branch: the option was "1" or "2", the number line had
been read, failed to parse, and the message is that raw line followed
by " is not a number". -/
theorem category_menu_err_inv (l1 l2 p : String) (c1 c2 : ℚ → ℚ)
    (inputs : List String) (s : String)
    (h : Out.err s ∈ (category_menu l1 l2 p c1 c2 inputs).1) :
    ∃ opt num rest, inputs = opt :: num :: rest ∧ (opt = "1" ∨ opt = "2") ∧
      parseFloat num = none ∧ s = num ++ " is not a number" := by
  cases inputs with
  | nil => simp [category_menu, menuHeader] at h
  | cons opt rest =>
    by_cases ho : opt = "1" ∨ opt = "2"
    · cases rest with
      | nil => simp [category_menu, menuHeader, ho] at h
      | cons num rest2 =>
        cases hp : parseFloat num with
        | some v => simp [category_menu, menuHeader, ho, hp] at h
        | none =>
          simp [category_menu, menuHeader, ho, hp] at h
          exact ⟨opt, num, rest2, rfl, ho, hp, h⟩
    · simp [category_menu, menuHeader, ho] at h

/-- Whether an output is a logged error line. -/
def Out.isErr : Out → Bool
  | .err _ => true
  | _ => false

/-! ## Claims -/

/-- Claim C1: each of the six conversion functions returns exactly the
fixed affine formula of its (category, direction) pair. -/
theorem spec_C1_conversion_formulas :
    (∀ v : ℚ, convert_c_to_f v = v * 1.8 + 32) ∧
    (∀ v : ℚ, convert_f_to_c v = (v - 32) / 1.8) ∧
    (∀ v : ℚ, convert_miles_to_km v = v * 1.60934) ∧
    (∀ v : ℚ, convert_km_to_miles v = v / 1.60934) ∧
    (∀ v : ℚ, convert_lbs_to_kg v = v * 0.453592) ∧
    (∀ v : ℚ, convert_kg_to_lbs v = v / 0.453592) :=
  ⟨fun _ => rfl, fun _ => rfl, fun _ => rfl, fun _ => rfl, fun _ => rfl, fun _ => rfl⟩

/-- Claim C3: composing the two directions of one category is the
identity on the idealised (exact-rational) values, in both orders, for
all three categories. -/
theorem spec_C3_roundtrip :
    (∀ v : ℚ, convert_f_to_c (convert_c_to_f v) = v) ∧
    (∀ v : ℚ, convert_c_to_f (convert_f_to_c v) = v) ∧
    (∀ v : ℚ, convert_km_to_miles (convert_miles_to_km v) = v) ∧
    (∀ v : ℚ, convert_miles_to_km (convert_km_to_miles v) = v) ∧
    (∀ v : ℚ, convert_kg_to_lbs (convert_lbs_to_kg v) = v) ∧
    (∀ v : ℚ, convert_lbs_to_kg (convert_kg_to_lbs v) = v) := by
  refine ⟨?_, ?_, ?_, ?_, ?_, ?_⟩ <;> intro v <;>
    simp [convert_f_to_c, convert_c_to_f, convert_km_to_miles, convert_miles_to_km,
      convert_kg_to_lbs, convert_lbs_to_kg] <;> ring_nf

/-- Claim C8: the conversion functions are pure total functions of
their argument (they are plain Lean functions into `ℚ`), and every
division among them is by a fixed nonzero constant, witnessed by the
cancellation identities. -/
theorem spec_C8_pure_total :
    ((1.8 : ℚ) ≠ 0 ∧ (1.60934 : ℚ) ≠ 0 ∧ (0.453592 : ℚ) ≠ 0) ∧
    (∀ v : ℚ, convert_f_to_c v * 1.8 = v - 32) ∧
    (∀ v : ℚ, convert_km_to_miles v * 1.60934 = v) ∧
    (∀ v : ℚ, convert_kg_to_lbs v * 0.453592 = v) := by
  refine ⟨⟨by norm_num, by norm_num, by norm_num⟩, ?_, ?_, ?_⟩ <;> intro v <;>
    simp [convert_f_to_c, convert_km_to_miles, convert_kg_to_lbs] <;> ring_nf

/-- Claim C2 counterexample: on the input sequence
`["1", "1", "100", "3", "q"]` the program does print `212.0`, but it
does not terminate cleanly: the "3" is read by the top menu (selecting
Weight) because the temperature menu returns automatically after
printing, the "q" is then consumed by the weight menu's direction
prompt, and the loop ends up blocked waiting for further input. -/
theorem spec_C2_counterexample :
    (run_main 6 ["1", "1", "100", "3", "q"]).2 = MainRes.blocked ∧
    Out.result (PyVal.fin 212) ∈ (run_main 6 ["1", "1", "100", "3", "q"]).1 := by
  norm_num +decide [run_main, main_step, temperature_menu, distance_menu, weight_menu,
    menuHeader, banner, convVal, convert_c_to_f, parseFloat, pyStrip, parseNumber,
    parseMantissa, parseExponent, natOfDigits, charDigitVal0, charDigitVal1]

/-- Claim C2 (amended): on the input sequence `["1", "1", "100", "q"]`
(the conversion returns to the top menu automatically, so no explicit
back step precedes the quit) the program prints the result `212` and
terminates cleanly, consuming exactly the given input and emitting
nothing after the final banner at which "q" is read. -/
theorem spec_C2_amended_scenario :
    run_main 5 ["1", "1", "100", "q"] =
      (banner ++ menuHeader "1. C to F" "2. F to C" "Pick a conversion" ++
        [Out.msg "Insert a number:", Out.result (PyVal.fin 212)] ++ banner,
       MainRes.quit []) := by
  norm_num +decide [run_main, main_step, temperature_menu, distance_menu, weight_menu,
    menuHeader, banner, convVal, convert_c_to_f, parseFloat, pyStrip, parseNumber,
    parseMantissa, parseExponent, natOfDigits, charDigitVal0, charDigitVal1]

/-- Claim C4: in every category menu, a direction option of "1" or "2"
followed by a number line that does not parse yields exactly the
header, the numeric prompt and the logged parse error (no result), the
menu returns the remaining input, and at the top level the loop
continues (`StepRes.cont`), so the failure never aborts the loop. -/
theorem spec_C4_parse_error_recovery (opt num : String) (rest : List String)
    (ho : opt = "1" ∨ opt = "2") (hp : parseFloat num = none) :
    temperature_menu (opt :: num :: rest) =
      (menuHeader "1. C to F" "2. F to C" "Pick a conversion" ++
        [Out.msg "Insert a number:", Out.err (num ++ " is not a number")], some rest) ∧
    distance_menu (opt :: num :: rest) =
      (menuHeader "1. Miles to KM" "2. KM to Miles " "Pick a conversion" ++
        [Out.msg "Insert a number:", Out.err (num ++ " is not a number")], some rest) ∧
    weight_menu (opt :: num :: rest) =
      (menuHeader "1. LBS TO KG" "2. KG TO LBS" "Pick a conversion:" ++
        [Out.msg "Insert a number:", Out.err (num ++ " is not a number")], some rest) ∧
    (main_step ("1" :: opt :: num :: rest)).2 = StepRes.cont rest ∧
    (main_step ("2" :: opt :: num :: rest)).2 = StepRes.cont rest ∧
    (main_step ("3" :: opt :: num :: rest)).2 = StepRes.cont rest := by
  refine ⟨?_, ?_, ?_, ?_, ?_, ?_⟩ <;>
    simp +decide [temperature_menu, distance_menu, weight_menu, main_step,
      menuHeader, ho, hp]

/-- Witness for claim C4 at category "2" (distance) with direction "2"
and the non-numeric line "abc". -/
theorem spec_C4_parse_error_recovery_witness :
    (main_step ["2", "2", "abc"]).2 = StepRes.cont [] :=
  (spec_C4_parse_error_recovery "2" "abc" [] (Or.inr rfl) (by decide)).2.2.2.2.1

/-- Claim C5 counterexample: the input line "inf" does not denote a
finite real number, yet `float` parses it successfully, the temperature
menu prints a converted result for it, and no error is reported — so
non-finite spellings are not treated as errors. -/
theorem spec_C5_counterexample :
    parseFloat "inf" = some PyVal.inf ∧
    temperature_menu ["1", "inf"] =
      (menuHeader "1. C to F" "2. F to C" "Pick a conversion" ++
        [Out.msg "Insert a number:", Out.result PyVal.inf], some []) ∧
    (temperature_menu ["1", "inf"]).1.all (fun o => ! o.isErr) = true := by
  refine ⟨by decide, by decide, by decide⟩

/-- Claim C5 (amended): in every category menu, for direction "1" or
"2", a parse error is reported exactly when the number line fails
Python float parsing, and a converted result is printed exactly when
parsing succeeds — including for the non-finite values `inf`/`nan`,
which parse successfully. -/
theorem spec_C5_amended (opt num : String) (rest : List String)
    (ho : opt = "1" ∨ opt = "2") :
    ((Out.err (num ++ " is not a number") ∈ (temperature_menu (opt :: num :: rest)).1) ↔
      parseFloat num = none) ∧
    ((∃ v, Out.result v ∈ (temperature_menu (opt :: num :: rest)).1) ↔
      (parseFloat num).isSome = true) ∧
    ((Out.err (num ++ " is not a number") ∈ (distance_menu (opt :: num :: rest)).1) ↔
      parseFloat num = none) ∧
    ((∃ v, Out.result v ∈ (distance_menu (opt :: num :: rest)).1) ↔
      (parseFloat num).isSome = true) ∧
    ((Out.err (num ++ " is not a number") ∈ (weight_menu (opt :: num :: rest)).1) ↔
      parseFloat num = none) ∧
    ((∃ v, Out.result v ∈ (weight_menu (opt :: num :: rest)).1) ↔
      (parseFloat num).isSome = true) := by
  cases hp : parseFloat num with
  | none =>
    refine ⟨?_, ?_, ?_, ?_, ?_, ?_⟩ <;>
      simp [temperature_menu, distance_menu, weight_menu, menuHeader, ho, hp]
  | some v =>
    rcases ho with h1 | h1 <;> subst h1 <;>
      refine ⟨?_, ?_, ?_, ?_, ?_, ?_⟩ <;>
        simp +decide [temperature_menu, distance_menu, weight_menu, menuHeader, hp]

/-- Witness for claim C5 at the temperature menu with direction "2"
and the non-numeric line "abc". -/
theorem spec_C5_amended_witness :
    Out.err ("abc" ++ " is not a number") ∈ (temperature_menu ["2", "abc"]).1 :=
  (spec_C5_amended "2" "abc" [] (Or.inr rfl)).1.mpr (by decide)

/-- Claim C6: "q" and "Q" at the top menu quit the loop; these are the
only inputs on which an iteration quits; any other input outside
{"1","2","3"} prints "Option not found" and the loop continues; and
whenever an iteration continues, the full run re-enters the loop on the
remaining input. -/
theorem spec_C6_termination :
    (∀ rest : List String, main_step ("q" :: rest) = (banner, StepRes.quit rest)) ∧
    (∀ rest : List String, main_step ("Q" :: rest) = (banner, StepRes.quit rest)) ∧
    (∀ (opt : String) (rest rem : List String),
      (main_step (opt :: rest)).2 = StepRes.quit rem → opt = "q" ∨ opt = "Q") ∧
    (∀ (opt : String) (rest : List String),
      opt ≠ "1" → opt ≠ "2" → opt ≠ "3" → opt ≠ "q" → opt ≠ "Q" →
      main_step (opt :: rest) = (banner ++ [Out.msg "Option not found"], StepRes.cont rest)) ∧
    (∀ (fuel : ℕ) (inputs : List String) (out : List Out) (rem : List String),
      main_step inputs = (out, StepRes.cont rem) →
      run_main (fuel + 1) inputs = (out ++ (run_main fuel rem).1, (run_main fuel rem).2)) := by
  refine ⟨fun rest => by simp +decide [main_step], fun rest => by simp +decide [main_step],
    ?_, ?_, ?_⟩
  · intro opt rest rem h
    by_cases h1 : opt = "1"
    · rcases htm : temperature_menu rest with ⟨out, r⟩
      cases r <;> simp [main_step, h1, htm] at h
    · by_cases h2 : opt = "2"
      · rcases htm : distance_menu rest with ⟨out, r⟩
        cases r <;> simp [main_step, h1, h2, htm] at h
      · by_cases h3 : opt = "3"
        · rcases htm : weight_menu rest with ⟨out, r⟩
          cases r <;> simp [main_step, h1, h2, h3, htm] at h
        · by_cases hq : opt = "q" ∨ opt = "Q"
          · exact hq
          · simp [main_step, h1, h2, h3, hq] at h
  · intro opt rest h1 h2 h3 hq hQ
    simp [main_step, h1, h2, h3, hq, hQ]
  · intro fuel inputs out rem h
    simp [run_main, h]

/-- Witness for claim C6: the out-of-range top-level input "4" prints
the notice and continues, and "q" quits. -/
theorem spec_C6_termination_witness :
    main_step ["4"] = (banner ++ [Out.msg "Option not found"], StepRes.cont []) ∧
    main_step ["q"] = (banner, StepRes.quit []) :=
  ⟨spec_C6_termination.2.2.2.1 "4" [] (by decide) (by decide) (by decide)
      (by decide) (by decide),
    spec_C6_termination.1 []⟩

/-- Claim C7: in every category menu, "3" and any other option outside
{"1","2"} return control immediately: the emitted output is exactly the
header printed before the option was read (no notice, no result, no
error), no further input line is consumed, and the rest of the input is
handed back. -/
theorem spec_C7_back_silent (opt : String) (rest : List String)
    (h1 : opt ≠ "1") (h2 : opt ≠ "2") :
    temperature_menu (opt :: rest) =
      (menuHeader "1. C to F" "2. F to C" "Pick a conversion", some rest) ∧
    distance_menu (opt :: rest) =
      (menuHeader "1. Miles to KM" "2. KM to Miles " "Pick a conversion", some rest) ∧
    weight_menu (opt :: rest) =
      (menuHeader "1. LBS TO KG" "2. KG TO LBS" "Pick a conversion:", some rest) := by
  refine ⟨?_, ?_, ?_⟩ <;> simp [temperature_menu, distance_menu, weight_menu, h1, h2]

/-- Witness for claim C7 at the explicit back option "3". -/
theorem spec_C7_back_silent_witness :
    temperature_menu ["3"] =
      (menuHeader "1. C to F" "2. F to C" "Pick a conversion", some []) ∧
    distance_menu ["3"] =
      (menuHeader "1. Miles to KM" "2. KM to Miles " "Pick a conversion", some []) ∧
    weight_menu ["3"] =
      (menuHeader "1. LBS TO KG" "2. KG TO LBS" "Pick a conversion:", some []) :=
  spec_C7_back_silent "3" [] (by decide) (by decide)

/-- Claim C9: the three category menus are instances of one common
template, differing only in the label/prompt strings and in the pair of
conversion functions applied; reads, writes and error handling are
identical. -/
theorem spec_C9_menus_equivalent :
    (∀ i, temperature_menu i =
      category_menu "1. C to F" "2. F to C" "Pick a conversion"
        convert_c_to_f convert_f_to_c i) ∧
    (∀ i, distance_menu i =
      category_menu "1. Miles to KM" "2. KM to Miles " "Pick a conversion"
        convert_miles_to_km convert_km_to_miles i) ∧
    (∀ i, weight_menu i =
      category_menu "1. LBS TO KG" "2. KG TO LBS" "Pick a conversion:"
        convert_lbs_to_kg convert_kg_to_lbs i) :=
  ⟨temperature_menu_eq, distance_menu_eq, weight_menu_eq⟩

/-- Claim C10: any error line emitted by any of the three category
menus comes from the branch where the raw number line had already been
read and bound: the option was "1" or "2", the number line follows it
in the input, that line fails to parse, and the logged diagnostic is
exactly that raw line followed by " is not a number". -/
theorem spec_C10_error_line (inputs : List String) (s : String)
    (h : Out.err s ∈ (temperature_menu inputs).1 ∨
         Out.err s ∈ (distance_menu inputs).1 ∨
         Out.err s ∈ (weight_menu inputs).1) :
    ∃ opt num rest, inputs = opt :: num :: rest ∧ (opt = "1" ∨ opt = "2") ∧
      parseFloat num = none ∧ s = num ++ " is not a number" := by
  rcases h with h | h | h
  · rw [temperature_menu_eq inputs] at h
    exact category_menu_err_inv _ _ _ _ _ inputs s h
  · rw [distance_menu_eq inputs] at h
    exact category_menu_err_inv _ _ _ _ _ inputs s h
  · rw [weight_menu_eq inputs] at h
    exact category_menu_err_inv _ _ _ _ _ inputs s h

/-- Witness for claim C10 on the temperature menu with input
`["1", "abc"]`. -/
theorem spec_C10_error_line_witness :
    ∃ opt num rest, (["1", "abc"] : List String) = opt :: num :: rest ∧
      (opt = "1" ∨ opt = "2") ∧ parseFloat num = none ∧
      "abc is not a number" = num ++ " is not a number" :=
  spec_C10_error_line ["1", "abc"] "abc is not a number" (Or.inl (by decide))

end UnitConverter
